import Mathlib

/-!
Shallow embedding of `keras/saving/experimental/saving_lib.py` (the
experimental idempotent saving framework): the polymorphic codec
(`serialize_keras_object` / `deserialize_keras_object`), the identity-based
child deduplication (`_get_unique_children_dict`), the recursive state
walkers (`_save_state` / `_load_state`) and the archive orchestration
(`save` / `load`).

Python machine state that the source touches is made explicit:
filesystem paths are lists of components, a `World` records the existing
directories and archive files, and the state walkers report their effects
as explicit event lists.  External collaborators (the registration tables,
`tf_export` lookups, `importlib`, `from_config` / `get_config`
capabilities and the object-graph reflection) are parameters of an `Env`
structure, mirroring the contracts the source calls into.
-/

/-- A Python class reference: the defining module path and the class name,
as used by `obj.__class__.__module__` and `obj.__class__.__name__`. -/
structure ClassRef where
  module : String
  name : String
deriving DecidableEq, Repr

/-- JSON-compatible values, the shape of config dicts handled by
`json.dumps` / `json_utils.decode` and passed to the codec. -/
inductive JValue where
  | null
  | bool (b : Bool)
  | num (n : Int)
  | str (s : String)
  | arr (xs : List JValue)
  | obj (fields : List (String × JValue))

/-- Modelled from the spec: the external JSON codec (`json.dumps` with
`json_utils.Encoder`, and `json_utils.decode`), which lives outside this
source file, is assumed to be a faithful encode/decode pair; the encoded
bytes are represented by the value they decode back to. -/
structure JsonBytes where
  val : JValue

/-- Modelled from the spec: `json.dumps(d, cls=json_utils.Encoder).encode()`. -/
def jsonDumps (v : JValue) : JsonBytes := ⟨v⟩

/-- Modelled from the spec: `json_utils.decode`. -/
def jsonDecode (b : JsonBytes) : JValue := b.val

mutual
/-- A live Python object as handled by `serialize_keras_object` and the
state walkers: a string, a function value (its defining module and name),
a class object, `None`, or a class instance.  An instance carries its
class, whether it `isinstance(base_layer.Layer)`, the result of its
`get_config()` capability (`none` when the attribute is missing), its
`_save_state` hook (`none` when the attribute is missing, `some none` when
the hook returns `None`, `some (some blob)` when it writes `blob` and
returns the path), whether it has a `_load_state` attribute, and its
children as reported by the object-graph reflection. -/
inductive KObj where
  | str : String → KObj
  | func : String → String → KObj
  | pyClass : ClassRef → KObj
  | pyNone : KObj
  | inst : ClassRef → Bool → Option JValue → Option (Option String) → Bool →
      List (String × ChildVal) → KObj

/-- A value in the reflection's children dict: either a single object or a
list of objects (expanded positionally by `_get_unique_children_dict`). -/
inductive ChildVal where
  | single : ChildItem → ChildVal
  | listOf : List ChildItem → ChildVal

/-- A child object together with its Python identity (`id`): either a
`tf.Variable` (skipped by the walker) or any other object. -/
inductive ChildItem where
  | tfvar : Nat → ChildItem
  | node : Nat → KObj → ChildItem
end

/-- The Python class of an object (`obj.__class__`). -/
def classOf : KObj → ClassRef
  | .str _ => ⟨"builtins", "str"⟩
  | .func _ _ => ⟨"builtins", "function"⟩
  | .pyClass _ => ⟨"builtins", "type"⟩
  | .pyNone => ⟨"builtins", "NoneType"⟩
  | .inst c _ _ _ _ _ => c

/-- An entry of the custom-object registration table: a registered
function or a registered class. -/
inductive RegEntry where
  | fn : String → String → RegEntry
  | cls : ClassRef → RegEntry
deriving DecidableEq, Repr

/-- The registered entry as a Python object (what
`get_custom_objects_by_name` hands back to the caller). -/
def regEntryObj : RegEntry → KObj
  | .fn m n => .func m n
  | .cls c => .pyClass c

/-- Modelled from the spec: the external collaborators the codec calls
into, none of which live in this source file — `tf_export`'s canonical
name table (`get_canonical_name_for_symbol` / `get_symbol_from_name`),
`generic_utils`'s registration table (`get_registered_name` /
`get_custom_objects_by_name`), `importlib` module lookup with module
attribute access (`vars(mod).get`), and each class's `from_config`
capability.  All are pure lookups per the spec (§4.1, §6). -/
structure Env where
  canonicalName : ClassRef → Option String
  registeredNameOfClass : ClassRef → Option String
  registeredNameOfFunc : String → String → Option String
  customObjects : String → Option RegEntry
  exportedSymbol : String → Option KObj
  moduleExists : String → Bool
  moduleAttr : String → String → Option KObj
  hasFromConfig : ClassRef → Bool
  fromConfig : ClassRef → JValue → KObj

/-- Errors raised by `serialize_keras_object` (the `TypeError` of
`_get_object_config` for objects without `get_config`). -/
inductive SerErr where
  | unconfigurable
deriving DecidableEq, Repr

/-- Mirrors `_get_object_registered_name`: functions are looked up
themselves, everything else by its class. -/
def _get_object_registered_name (env : Env) (obj : KObj) : Option String :=
  match obj with
  | .func m n => env.registeredNameOfFunc m n
  | _ => env.registeredNameOfClass (classOf obj)

/-- Mirrors `_get_object_config`: a string is its own config, a function
records its module and name, anything else must expose `get_config`. -/
def _get_object_config : KObj → Except SerErr JValue
  | .str s => .ok (.str s)
  | .func m n => .ok (.obj [("module", .str m), ("function_name", .str n)])
  | .inst _ _ gc _ _ _ =>
    match gc with
    | some v => .ok v
    | none => .error .unconfigurable
  | .pyClass _ => .error .unconfigurable
  | .pyNone => .error .unconfigurable

/-- A Python `str | None` value as JSON. -/
def optStr : Option String → JValue
  | some s => .str s
  | none => .null

/-- Mirrors `serialize_keras_object`: canonical keras name if exported,
else the class's module and bare name; config and registered name from
the helpers; keys in the source's literal order. -/
def serialize_keras_object (env : Env) (obj : KObj) : Except SerErr JValue :=
  let cref := classOf obj
  let mc : JValue × String :=
    match env.canonicalName cref with
    | some cn => (JValue.null, cn)
    | none => (JValue.str cref.module, cref.name)
  match _get_object_config obj with
  | .error e => .error e
  | .ok config =>
    .ok (JValue.obj [
      ("module", mc.1),
      ("class_name", JValue.str mc.2),
      ("config", config),
      ("registered_name", optStr (_get_object_registered_name env obj))])

/-- Errors raised by `deserialize_keras_object`: `KeyError` on a missing
record key, the `TypeError` for a non-string `str` config, the
`TypeError` for an unrecognized builtins class, `ImportError`,
`AttributeError` (a registered entry without `from_config`), and the
`TypeError` "Unable to reconstruct an instance of ...". -/
inductive DesErr where
  | keyError (k : String)
  | configNotString (config : JValue)
  | unrecognizedType (class_name : JValue)
  | importError
  | attributeError
  | unableToReconstruct

/-- Python `d[k]` on a decoded JSON dict (`KeyError` when absent; a
non-dict value also fails the subscript). -/
def getKey (d : JValue) (k : String) : Except DesErr JValue :=
  match d with
  | .obj fields =>
    match fields.lookup k with
    | some v => .ok v
    | none => .error (.keyError k)
  | _ => .error (.keyError k)

/-- Python `d.get(k, None)` on a decoded JSON dict. -/
def jGet (d : JValue) (k : String) : Option JValue :=
  match d with
  | .obj fields => fields.lookup k
  | _ => none

/-- Modelled from the spec: `generic_utils.get_custom_objects_by_name`
(outside this source file) resolves a registered alias; a `None` or
non-string key resolves to nothing. -/
def get_custom_objects_by_name (env : Env) : JValue → Option RegEntry
  | .str name => env.customObjects name
  | _ => none

/-- Python `x if x is not None else None` for attribute lookups that may
miss: a missing attribute is the `None` object. -/
def orPyNone : Option KObj → KObj
  | some o => o
  | none => .pyNone

/-- Python `v == "lit"` between a decoded JSON value and a string literal. -/
def jeqStr (v : JValue) (lit : String) : Bool :=
  match v with
  | .str s => s == lit
  | _ => false

/-- Python `v is None` on a decoded JSON value. -/
def jIsNull (v : JValue) : Bool :=
  match v with
  | .null => true
  | _ => false

/-- Mirrors `deserialize_keras_object`: fetch the four record keys, handle
`builtins` strings and functions, otherwise registration wins, else
resolve the class by exported name (`module is None`) or by importing
`module`, and apply `from_config`. -/
def deserialize_keras_object (env : Env) (config_dict : JValue) :
    Except DesErr KObj := do
  let class_name ← getKey config_dict "class_name"
  let config ← getKey config_dict "config"
  let module ← getKey config_dict "module"
  let registered_name ← getKey config_dict "registered_name"
  if jeqStr module "builtins" then
    if jeqStr class_name "str" then
      match config with
      | .str s => pure (KObj.str s)
      | _ => throw (.configNotString config)
    else if jeqStr class_name "function" then
      match get_custom_objects_by_name env registered_name with
      | some custom_function => pure (regEntryObj custom_function)
      | none =>
        match jGet config "module" with
        | some (.str fm) =>
          if env.moduleExists fm then
            match ← getKey config "function_name" with
            | .str fn => pure (orPyNone (env.moduleAttr fm fn))
            | _ => pure KObj.pyNone
          else throw .importError
        | _ => throw .importError
    else throw (.unrecognizedType class_name)
  else
    match get_custom_objects_by_name env registered_name with
    | some custom_class =>
      match custom_class with
      | .cls c =>
        if env.hasFromConfig c then pure (env.fromConfig c config)
        else throw .attributeError
      | .fn _ _ => throw .attributeError
    | none =>
      let cls : Option KObj ←
        if jIsNull module then
          match class_name with
          | .str cn => pure (env.exportedSymbol cn)
          | _ => pure none
        else
          match module with
          | .str m =>
            if env.moduleExists m then
              match class_name with
              | .str cn => pure (env.moduleAttr m cn)
              | _ => pure none
            else throw .importError
          | _ => throw .importError
      match cls with
      | some (.pyClass c) =>
        if env.hasFromConfig c then pure (env.fromConfig c config)
        else throw .unableToReconstruct
      | _ => throw .unableToReconstruct

/-- Source constant `_ARCHIVE_FILENAME`. -/
def _ARCHIVE_FILENAME : String := "archive.keras"

/-- Source constant `_STATES_FILENAME`. -/
def _STATES_FILENAME : String := "states.npz"

/-- Source constant `_CONFIG_FILENAME`. -/
def _CONFIG_FILENAME : String := "config.json"

/-- Source constant `_STATES_ROOT_DIRNAME`. -/
def _STATES_ROOT_DIRNAME : String := "model"

/-- Modelled from the spec: the reflection collaborator
`tf.__internal__.tracking.ObjectGraphView(x).children(x)` (outside this
source file) reports an instance's named children; objects that do not
participate in tracking have none. -/
def childrenOf : KObj → List (String × ChildVal)
  | .inst _ _ _ _ _ ch => ch
  | _ => []

/-- Mirrors `_collect_key_object_in_dict`: skip `tf.Variable`s, skip
objects already seen (Python set membership, which for these objects is
object identity), otherwise record the key and remember the object. -/
def _collect_key_object_in_dict (key : String) (obj : ChildItem)
    (unique_children_dict : List (String × ChildItem))
    (added_objects : List Nat) :
    List (String × ChildItem) × List Nat :=
  match obj with
  | .tfvar _ => (unique_children_dict, added_objects)
  | .node oid o =>
    if oid ∈ added_objects then (unique_children_dict, added_objects)
    else (unique_children_dict ++ [(key, .node oid o)], added_objects ++ [oid])

/-- Mirrors `_get_unique_children_dict`: fold over the reflection's
children dict in order, expanding a list-valued child into entries named
`attr-k` for each index `k`, deduplicating across the whole call. -/
def _get_unique_children_dict (trackable : KObj) :
    List (String × ChildItem) :=
  ((childrenOf trackable).foldl (fun acc p =>
    match p with
    | (child_attr, ChildVal.listOf child_obj) =>
      child_obj.enum.foldl (fun acc2 q =>
        _collect_key_object_in_dict (child_attr ++ "-" ++ toString q.1) q.2
          acc2.1 acc2.2) acc
    | (child_attr, ChildVal.single child_obj) =>
      _collect_key_object_in_dict child_attr child_obj acc.1 acc.2)
    ([], [])).1

/-- Mirrors `_is_keras_trackable`: `isinstance(object, base_layer.Layer)`. -/
def _is_keras_trackable : KObj → Bool
  | .inst _ isLayer _ _ _ _ => isLayer
  | _ => false

/-- The `_save_state` attribute of an object (`none` when missing). -/
def saveStateAttr : KObj → Option (Option String)
  | .inst _ _ _ ss _ _ => ss
  | _ => none

/-- Whether the object has a `_load_state` attribute. -/
def hasLoadStateAttr : KObj → Bool
  | .inst _ _ _ _ hl _ => hl
  | _ => false

/-- An entry stored in the zip archive: the config bytes or a state blob. -/
inductive ZEntry where
  | bytes : JsonBytes → ZEntry
  | blob : String → ZEntry

/-- The zip archive: named entries in write order. -/
structure Archive where
  entries : List (String × ZEntry)

/-- Python `ZipFile.namelist()`. -/
def Archive.namelist (z : Archive) : List String := z.entries.map Prod.fst

instance : Inhabited Archive := ⟨⟨[]⟩⟩

/-- Mirrors `tf.io.gfile.join` on archive-internal paths. -/
def gjoin (a b : String) : String := a ++ "/" ++ b

/-- Mirrors `_save_state`: if the trackable has a `_save_state` hook and
the hook produces a file, that file's blob is written into the archive at
`zip_dir_path/states.npz` (and the scratch copy removed); then the unique
keras-trackable children are saved recursively, each under
`zip_dir_path/child_attr`.  The function returns the entries written, in
write order; `fuel` bounds the recursion depth, which the source leaves
unbounded. -/
def _save_state : Nat → KObj → String → List String →
    List (String × ZEntry)
  | 0, _, _, _ => []
  | fuel + 1, trackable, zip_dir_path, temp_path =>
    (match saveStateAttr trackable with
     | some (some blob) =>
       [(gjoin zip_dir_path _STATES_FILENAME, ZEntry.blob blob)]
     | _ => []) ++
    ((_get_unique_children_dict trackable).map (fun p =>
      match p.2 with
      | .node _ child_obj =>
        if _is_keras_trackable child_obj then
          _save_state fuel child_obj (gjoin zip_dir_path p.1) temp_path
        else []
      | .tfvar _ => [])).flatten

/-- Observable effects of `_load_state`: extracting an archive entry into
the scratch workspace, invoking a node's `_load_state` hook (the node
named by its archive directory path), and removing the extracted scratch
file. -/
inductive LEvent where
  | extract : String → LEvent
  | absorb : String → LEvent
  | removeExtracted : String → LEvent
deriving DecidableEq, Repr

/-- Mirrors `_load_state`: if `zip_dir_path/states.npz` is in the archive
it is extracted to the scratch workspace, the node's `_load_state` hook
is invoked when the attribute exists, and the extracted file is removed;
then the unique keras-trackable children are loaded recursively, each
under `zip_dir_path/child_attr`.  The function returns the events in
order; `fuel` bounds the recursion depth, which the source leaves
unbounded. -/
def _load_state : Nat → KObj → String → List String → Archive →
    List LEvent
  | 0, _, _, _, _ => []
  | fuel + 1, trackable, zip_dir_path, temp_path, z =>
    (let state_path := gjoin zip_dir_path _STATES_FILENAME
     if state_path ∈ z.namelist then
       [LEvent.extract state_path] ++
       (if hasLoadStateAttr trackable then [LEvent.absorb zip_dir_path]
        else []) ++
       [LEvent.removeExtracted state_path]
     else []) ++
    ((_get_unique_children_dict trackable).map (fun p =>
      match p.2 with
      | .node _ child_obj =>
        if _is_keras_trackable child_obj then
          _load_state fuel child_obj (gjoin zip_dir_path p.1) temp_path z
        else []
      | .tfvar _ => [])).flatten

/-- The filesystem state `save` and `load` interact with: existing
directories, archive files on disk (path and contents), and the
`tempfile.mkdtemp` name counter.  Paths are lists of components. -/
structure World where
  dirs : List (List String)
  archiveFiles : List (List String × Archive)
  tmpCounter : Nat

/-- Mirrors `tf.io.gfile.exists`. -/
def existsPath (w : World) (p : List String) : Bool :=
  p ∈ w.dirs ∨ p ∈ w.archiveFiles.map Prod.fst

/-- Mirrors `tf.io.gfile.mkdir`. -/
def mkdir (w : World) (p : List String) : World :=
  { w with dirs := p :: w.dirs }

/-- The directory name `tempfile.mkdtemp(dir=d)` produces for counter
value `n`. -/
def mkdtempName (d : List String) (n : Nat) : List String :=
  d ++ ["tmp" ++ toString n]

/-- Mirrors `tempfile.mkdtemp(dir=d)`: create a fresh directory under `d` and
return its path. -/
def mkdtemp (w : World) (d : List String) : List String × World :=
  (mkdtempName d w.tmpCounter,
   { w with dirs := mkdtempName d w.tmpCounter :: w.dirs,
            tmpCounter := w.tmpCounter + 1 })

/-- Mirrors `tf.io.gfile.rmtree`: remove a path and everything below it. -/
def rmtree (w : World) (p : List String) : World :=
  { w with dirs := w.dirs.filter (fun q => ¬ p.isPrefixOf q),
           archiveFiles :=
             w.archiveFiles.filter (fun e => ¬ p.isPrefixOf e.1) }

/-- Errors `save` raises: the `FileExistsError` of `ZipFile(path, "x")`
on an existing archive, and a serialization failure. -/
inductive SaveErr where
  | archiveExists : List String → SaveErr
  | notSerializable : SerErr → SaveErr

/-- Mirrors `save`: ensure the destination directory exists, serialize
the model, JSON-encode it, create the scratch workspace, open the
archive for exclusive creation (`"x"`), write the config entry followed
by the state entries, and remove the scratch workspace.  Failures carry
the world at the point of failure. -/
def save (env : Env) (fuel : Nat) (model : KObj) (dirpath : List String)
    (w : World) : Except (SaveErr × World) World :=
  let w1 := if existsPath w dirpath then w else mkdir w dirpath
  let file_path := dirpath ++ [_ARCHIVE_FILENAME]
  match serialize_keras_object env model with
  | .error e => .error (.notSerializable e, w1)
  | .ok serialized_model_dict =>
    let config_json := jsonDumps serialized_model_dict
    let tw := mkdtemp w1 dirpath
    let temp_path := tw.1
    let w2 := tw.2
    let w3 := if existsPath w2 temp_path then w2 else mkdir w2 temp_path
    if file_path ∈ w3.archiveFiles.map Prod.fst then
      .error (.archiveExists file_path, w3)
    else
      let z : Archive :=
        ⟨(_CONFIG_FILENAME, ZEntry.bytes config_json) ::
          _save_state fuel model _STATES_ROOT_DIRNAME temp_path⟩
      let w4 := { w3 with archiveFiles := (file_path, z) :: w3.archiveFiles }
      .ok (rmtree w4 temp_path)

/-- Errors `load` raises: the `FileNotFoundError` of opening a missing
archive, the `KeyError` of a missing `config.json` entry, a config entry
that is not JSON bytes, and a deserialization failure. -/
inductive LoadErr where
  | archiveNotFound : List String → LoadErr
  | missingConfigEntry : LoadErr
  | badConfigEntry : LoadErr
  | badConfig : DesErr → LoadErr

/-- Mirrors `load`: compute the archive path, create the scratch
workspace (before the archive is opened, as in the source), open the
archive, read and decode `config.json`, deserialize the model, replay
the state walk, and remove the scratch workspace if it still exists.
Failures carry the world at the point of failure. -/
def load (env : Env) (fuel : Nat) (dirpath : List String) (w : World) :
    Except (LoadErr × World) (KObj × World) :=
  let file_path := dirpath ++ [_ARCHIVE_FILENAME]
  let tw := mkdtemp w dirpath
  let temp_path := tw.1
  let w1 := tw.2
  match w1.archiveFiles.lookup file_path with
  | none => .error (.archiveNotFound file_path, w1)
  | some z =>
    match z.entries.lookup _CONFIG_FILENAME with
    | none => .error (.missingConfigEntry, w1)
    | some (ZEntry.blob _) => .error (.badConfigEntry, w1)
    | some (ZEntry.bytes config_json) =>
      match deserialize_keras_object env (jsonDecode config_json) with
      | .error e => .error (.badConfig e, w1)
      | .ok model =>
        let _events := _load_state fuel model _STATES_ROOT_DIRNAME temp_path z
        let w2 := if existsPath w1 temp_path then rmtree w1 temp_path else w1
        .ok (model, w2)

/-- A concrete collaborator environment used to evaluate the model on
closed inputs: one exported class, one registered class, one registered
function, and one plain importable module class. -/
def envW : Env where
  canonicalName := fun c =>
    if c = ⟨"keras.engine.training", "Model"⟩ then some "keras.Model"
    else none
  registeredNameOfClass := fun c =>
    if c = ⟨"my_pkg.mod", "MyLayer"⟩ then some "my_pkg>MyLayer" else none
  registeredNameOfFunc := fun m n =>
    if m = "my_pkg.mod" ∧ n = "my_act" then some "my_pkg>my_act" else none
  customObjects := fun a =>
    if a = "my_pkg>MyLayer" then some (.cls ⟨"my_pkg.mod", "MyLayer"⟩)
    else if a = "my_pkg>my_act" then some (.fn "my_pkg.mod" "my_act")
    else none
  exportedSymbol := fun n =>
    if n = "keras.Model" then
      some (.pyClass ⟨"keras.engine.training", "Model"⟩)
    else none
  moduleExists := fun m =>
    m == "my_pkg.mod" || m == "keras.engine.compile_utils"
  moduleAttr := fun m n =>
    if m = "my_pkg.mod" ∧ n = "my_act" then
      some (.func "my_pkg.mod" "my_act")
    else if m = "keras.engine.compile_utils" ∧ n = "LossesContainer" then
      some (.pyClass ⟨"keras.engine.compile_utils", "LossesContainer"⟩)
    else none
  hasFromConfig := fun _ => true
  fromConfig := fun c cfg => .inst c true (some cfg) none false []

/-- C2: serializing the string `"hello"` produces exactly the record with
class name `"str"`, module `"builtins"`, the string itself as config, and
the registered alias of `str` (or null); deserializing that record
returns the string verbatim. -/
theorem str_serialize_deserialize_verbatim (env : Env) (s : String)
    (hc : env.canonicalName ⟨"builtins", "str"⟩ = none) :
    serialize_keras_object env (KObj.str s) =
      .ok (JValue.obj [
        ("module", JValue.str "builtins"),
        ("class_name", JValue.str "str"),
        ("config", JValue.str s),
        ("registered_name",
          optStr (env.registeredNameOfClass ⟨"builtins", "str"⟩))]) ∧
    deserialize_keras_object env (JValue.obj [
        ("module", JValue.str "builtins"),
        ("class_name", JValue.str "str"),
        ("config", JValue.str s),
        ("registered_name",
          optStr (env.registeredNameOfClass ⟨"builtins", "str"⟩))]) =
      .ok (KObj.str s) := by
  constructor
  · simp [serialize_keras_object, classOf, _get_object_config, hc,
      _get_object_registered_name]
  · rfl

/-- C2 witness: the concrete environment at `"hello"`. -/
theorem str_serialize_deserialize_verbatim_witness :
    serialize_keras_object envW (KObj.str "hello") =
      .ok (JValue.obj [
        ("module", JValue.str "builtins"),
        ("class_name", JValue.str "str"),
        ("config", JValue.str "hello"),
        ("registered_name",
          optStr (envW.registeredNameOfClass ⟨"builtins", "str"⟩))]) ∧
    deserialize_keras_object envW (JValue.obj [
        ("module", JValue.str "builtins"),
        ("class_name", JValue.str "str"),
        ("config", JValue.str "hello"),
        ("registered_name",
          optStr (envW.registeredNameOfClass ⟨"builtins", "str"⟩))]) =
      .ok (KObj.str "hello") :=
  str_serialize_deserialize_verbatim envW "hello" (by decide)

/-- C8: deserializing a `builtins`/`str` record whose config is the
number 42 fails with the config-type error and returns no value. -/
theorem deserialize_nonstring_config_rejected (env : Env) :
    deserialize_keras_object env (JValue.obj [
      ("class_name", JValue.str "str"),
      ("module", JValue.str "builtins"),
      ("config", JValue.num 42),
      ("registered_name", JValue.null)]) =
      .error (.configNotString (JValue.num 42)) := rfl

/-- C3: deserializing a non-builtins record whose registered name
resolves to a registered class reconstructs through that class's
`from_config` applied to the config; the stored `class_name` and `module`
values are not consulted (the result is the same for every such pair). -/
theorem deserialize_registered_alias_wins (env : Env)
    (aName : String) (class_name module_v config : JValue) (c : ClassRef)
    (hmod : jeqStr module_v "builtins" = false)
    (hreg : env.customObjects aName = some (.cls c))
    (hfc : env.hasFromConfig c = true) :
    deserialize_keras_object env (JValue.obj [
      ("class_name", class_name),
      ("config", config),
      ("module", module_v),
      ("registered_name", JValue.str aName)]) =
      .ok (env.fromConfig c config) := by
  simp [deserialize_keras_object, getKey, List.lookup, bind, Except.bind,
    hmod, get_custom_objects_by_name, hreg, hfc, pure, Except.pure]

/-- C3 witness: the concrete environment, a record whose stored class
name and module point elsewhere, and the registered alias winning. -/
theorem deserialize_registered_alias_wins_witness :
    deserialize_keras_object envW (JValue.obj [
      ("class_name", JValue.str "SomethingElse"),
      ("config", JValue.obj []),
      ("module", JValue.str "other.module"),
      ("registered_name", JValue.str "my_pkg>MyLayer")]) =
      .ok (envW.fromConfig ⟨"my_pkg.mod", "MyLayer"⟩ (JValue.obj [])) :=
  deserialize_registered_alias_wins envW "my_pkg>MyLayer"
    (JValue.str "SomethingElse") (JValue.str "other.module")
    (JValue.obj []) ⟨"my_pkg.mod", "MyLayer"⟩ rfl (by decide) rfl

/-- A parent instance (a layer) with the given reflection children. -/
def parentWith (ch : List (String × ChildVal)) : KObj :=
  KObj.inst ⟨"my_pkg.mod", "Parent"⟩ true none none false ch

/-- A childless stateful layer whose `_save_state` hook writes `b`. -/
def statefulLayer (b : String) : KObj :=
  KObj.inst ⟨"my_pkg.mod", "Leaf"⟩ true none (some (some b)) false []

/-- C4: within one enumeration of a parent's children the walker
deduplicates by object identity — the same object (same `id`) under two
names keeps only the first name, and `save` produces exactly one
`states.npz` entry for it; two distinct objects (different `id`) with
equal value are both kept and produce two entries. -/
theorem children_dedup_by_identity (n1 n2 : String) (o o1 o2 : Nat)
    (x : KObj) (b : String) (temp : List String) (f : Nat)
    (hne : o1 ≠ o2) :
    _get_unique_children_dict (parentWith
        [(n1, .single (.node o x)), (n2, .single (.node o x))]) =
      [(n1, .node o x)] ∧
    _get_unique_children_dict (parentWith
        [(n1, .single (.node o1 x)), (n2, .single (.node o2 x))]) =
      [(n1, .node o1 x), (n2, .node o2 x)] ∧
    _save_state (f + 2) (parentWith
        [(n1, .single (.node o (statefulLayer b))),
         (n2, .single (.node o (statefulLayer b)))])
        _STATES_ROOT_DIRNAME temp =
      [(gjoin (gjoin _STATES_ROOT_DIRNAME n1) _STATES_FILENAME,
        ZEntry.blob b)] ∧
    _save_state (f + 2) (parentWith
        [(n1, .single (.node o1 (statefulLayer b))),
         (n2, .single (.node o2 (statefulLayer b)))])
        _STATES_ROOT_DIRNAME temp =
      [(gjoin (gjoin _STATES_ROOT_DIRNAME n1) _STATES_FILENAME,
        ZEntry.blob b),
       (gjoin (gjoin _STATES_ROOT_DIRNAME n2) _STATES_FILENAME,
        ZEntry.blob b)] := by
  refine ⟨?_, ?_, ?_, ?_⟩
  · simp [_get_unique_children_dict, childrenOf, parentWith,
      _collect_key_object_in_dict]
  · simp [_get_unique_children_dict, childrenOf, parentWith,
      _collect_key_object_in_dict, hne, Ne.symm hne]
  · simp [_save_state, _get_unique_children_dict,
      childrenOf, parentWith, statefulLayer, _collect_key_object_in_dict,
      saveStateAttr, _is_keras_trackable]
  · simp [_save_state, _get_unique_children_dict,
      childrenOf, parentWith, statefulLayer, _collect_key_object_in_dict,
      saveStateAttr, _is_keras_trackable, hne, Ne.symm hne]

/-- C4 witness: concrete names, identities and blob. -/
theorem children_dedup_by_identity_witness :
    _get_unique_children_dict (parentWith
        [("a", .single (.node 7 (statefulLayer "B"))),
         ("c", .single (.node 7 (statefulLayer "B")))]) =
      [("a", .node 7 (statefulLayer "B"))] ∧
    _get_unique_children_dict (parentWith
        [("a", .single (.node 7 (statefulLayer "B"))),
         ("c", .single (.node 8 (statefulLayer "B")))]) =
      [("a", .node 7 (statefulLayer "B")),
       ("c", .node 8 (statefulLayer "B"))] ∧
    _save_state 2 (parentWith
        [("a", .single (.node 7 (statefulLayer "B"))),
         ("c", .single (.node 7 (statefulLayer "B")))])
        _STATES_ROOT_DIRNAME [] =
      [(gjoin (gjoin _STATES_ROOT_DIRNAME "a") _STATES_FILENAME,
        ZEntry.blob "B")] ∧
    _save_state 2 (parentWith
        [("a", .single (.node 7 (statefulLayer "B"))),
         ("c", .single (.node 8 (statefulLayer "B")))])
        _STATES_ROOT_DIRNAME [] =
      [(gjoin (gjoin _STATES_ROOT_DIRNAME "a") _STATES_FILENAME,
        ZEntry.blob "B"),
       (gjoin (gjoin _STATES_ROOT_DIRNAME "c") _STATES_FILENAME,
        ZEntry.blob "B")] := by
  have h := children_dedup_by_identity "a" "c" 7 7 8 (statefulLayer "B")
    "B" [] 0 (by decide)
  exact h

/-- The scratch directory component never collides with the archive
filename (it starts with "tmp"). -/
theorem tmpName_ne_archive (s : String) : ("tmp" ++ s) ≠ _ARCHIVE_FILENAME := by
  intro h
  have h2 := congrArg String.data h
  rw [String.data_append] at h2
  have h3 : "tmp".data = ['t', 'm', 'p'] := rfl
  rw [h3] at h2
  simp [_ARCHIVE_FILENAME] at h2

/-- Removing the scratch directory tree never removes the archive file. -/
theorem mkdtemp_not_prefix_archive (d : List String) (n : Nat) :
    (mkdtempName d n).isPrefixOf (d ++ [_ARCHIVE_FILENAME]) = false := by
  rw [← Bool.not_eq_true, List.isPrefixOf_iff_prefix, mkdtempName,
    List.prefix_append_right_inj]
  intro h
  rcases h with ⟨t, ht⟩
  injection ht with h1 _
  exact tmpName_ne_archive _ h1

/-- The empty starting world. -/
def W0 : World := ⟨[], [], 0⟩

/-- The record `serialize_keras_object` produces for the string "hi"
under `envW`. -/
def rHi : JValue := JValue.obj [("module", .str "builtins"),
  ("class_name", .str "str"), ("config", .str "hi"),
  ("registered_name", .null)]

/-- The archive a save of "hi" writes: the config entry only. -/
def zHi : Archive := ⟨[("config.json", ZEntry.bytes ⟨rHi⟩)]⟩

/-- The world after one successful `save` of "hi" at `["dest"]`. -/
def W1 : World := ⟨[["dest"]], [(["dest", "archive.keras"], zHi)], 1⟩

/-- The world `save` fails in when the archive already exists: the
scratch directory has been created, nothing else has changed. -/
def saveFailWorld (d : List String) (w : World) : World :=
  { dirs := mkdtempName d w.tmpCounter ::
      (if existsPath w d then w.dirs else d :: w.dirs),
    archiveFiles := w.archiveFiles,
    tmpCounter := w.tmpCounter + 1 }

/-- C5 (amended): saving onto an existing archive fails with the
destination-exists condition of exclusive creation and writes no archive
entry, but the check is not made before all writes: the scratch
directory has already been created at the destination (and is left
behind). -/
theorem save_existing_archive_fails_after_scratch (env : Env) (fuel : Nat)
    (model : KObj) (d : List String) (w : World) (r : JValue)
    (hser : serialize_keras_object env model = .ok r)
    (hex : d ++ [_ARCHIVE_FILENAME] ∈ w.archiveFiles.map Prod.fst) :
    save env fuel model d w =
      .error (.archiveExists (d ++ [_ARCHIVE_FILENAME]), saveFailWorld d w) ∧
    (saveFailWorld d w).archiveFiles = w.archiveFiles ∧
    mkdtempName d w.tmpCounter ∈ (saveFailWorld d w).dirs := by
  refine ⟨?_, rfl, List.mem_cons_self _ _⟩
  have htmp : ∀ (ds : List (List String)) (afs : List (List String × Archive))
      (c : Nat),
      existsPath ⟨mkdtempName d c :: ds, afs, c + 1⟩ (mkdtempName d c) =
        true := by
    intro ds afs c
    simp [existsPath]
  by_cases hd : existsPath w d
  · simp [save, hser, mkdtemp, mkdir, hd, htmp, saveFailWorld, hex]
  · simp [save, hser, mkdtemp, mkdir, hd, htmp, saveFailWorld, hex]

/-- C5 witness: saving "hi" again onto the world after the first save. -/
theorem save_existing_archive_fails_after_scratch_witness :
    save envW 3 (KObj.str "hi") ["dest"] W1 =
      .error (.archiveExists ["dest", "archive.keras"],
        saveFailWorld ["dest"] W1) ∧
    (saveFailWorld ["dest"] W1).archiveFiles = W1.archiveFiles ∧
    mkdtempName ["dest"] W1.tmpCounter ∈ (saveFailWorld ["dest"] W1).dirs :=
  save_existing_archive_fails_after_scratch envW 3 (KObj.str "hi")
    ["dest"] W1 rHi rfl (by decide)

/-- C5 counterexample: the second save fails with archive-exists, yet the
error world contains a freshly created scratch directory at the
destination, refuting "before any new entry or file is created at the
destination". -/
theorem save_twice_scratch_written_counterexample :
    save envW 3 (KObj.str "hi") ["dest"] W0 = .ok W1 ∧
    save envW 3 (KObj.str "hi") ["dest"] W1 =
      .error (.archiveExists ["dest", "archive.keras"],
        ⟨[["dest", "tmp1"], ["dest"]],
         [(["dest", "archive.keras"], zHi)], 2⟩) ∧
    ["dest", "tmp1"] ∉ W1.dirs := by
  refine ⟨rfl, rfl, by decide⟩

/-- C9 (amended): `load` creates the scratch workspace before the archive
is opened; on a directory with no archive it fails with the
archive-not-found condition and the freshly created scratch directory is
left in the source directory. -/
theorem load_missing_archive_scratch_left (env : Env) (fuel : Nat)
    (d : List String) (w : World)
    (hno : w.archiveFiles.lookup (d ++ [_ARCHIVE_FILENAME]) = none) :
    load env fuel d w =
      .error (.archiveNotFound (d ++ [_ARCHIVE_FILENAME]),
        { dirs := mkdtempName d w.tmpCounter :: w.dirs,
          archiveFiles := w.archiveFiles,
          tmpCounter := w.tmpCounter + 1 }) := by
  simp [load, mkdtemp, hno]

/-- C9 witness: loading from a directory with no archive. -/
theorem load_missing_archive_scratch_left_witness :
    load envW 3 ["dest9"] ⟨[["dest9"]], [], 0⟩ =
      .error (.archiveNotFound ["dest9", "archive.keras"],
        { dirs := mkdtempName ["dest9"] 0 :: [["dest9"]],
          archiveFiles := [],
          tmpCounter := 1 }) :=
  load_missing_archive_scratch_left envW 3 ["dest9"] ⟨[["dest9"]], [], 0⟩ rfl

/-- C9 counterexample: `load` on an archive-less directory fails, but the
error world's directory list differs from the initial one — a scratch
directory was created before the archive open, refuting "fails without
having created any scratch directory". -/
theorem load_scratch_created_before_open_counterexample :
    load envW 3 ["dest9"] ⟨[["dest9"]], [], 0⟩ =
      .error (.archiveNotFound ["dest9", "archive.keras"],
        ⟨[["dest9", "tmp0"], ["dest9"]], [], 1⟩) ∧
    ([["dest9", "tmp0"], ["dest9"]] : List (List String)) ≠ [["dest9"]] := by
  refine ⟨rfl, by decide⟩

/-- A list is a prefix of itself (Bool form used by `rmtree`). -/
theorem isPrefixOf_self (l : List String) : l.isPrefixOf l = true :=
  List.isPrefixOf_iff_prefix.mpr (List.prefix_refl l)

/-- The freshly created scratch directory exists in the world `mkdtemp`
returns. -/
theorem existsPath_mkdtemp (d : List String) (ds : List (List String))
    (afs : List (List String × Archive)) (c : Nat) :
    existsPath ⟨mkdtempName d c :: ds, afs, c + 1⟩ (mkdtempName d c) =
      true := by
  simp [existsPath]

/-- C6 (amended): the scratch workspace is removed on every success exit
of `save` and of `load`; on the failure paths reached after its creation
(the archive-exists failure of `save`, every failure of `load`) its
removal is not attempted and the scratch directory is left behind. -/
theorem scratch_removed_on_success_not_on_failure :
    (∀ env fuel model d w w', save env fuel model d w = .ok w' →
      mkdtempName d w.tmpCounter ∉ w'.dirs) ∧
    (∀ env fuel d w G w', load env fuel d w = .ok (G, w') →
      mkdtempName d w.tmpCounter ∉ w'.dirs) ∧
    (∀ env fuel model d w fp w',
      save env fuel model d w = .error (.archiveExists fp, w') →
      mkdtempName d w.tmpCounter ∈ w'.dirs) ∧
    (∀ env fuel d w e w', load env fuel d w = .error (e, w') →
      mkdtempName d w.tmpCounter ∈ w'.dirs) := by
  refine ⟨?_, ?_, ?_, ?_⟩
  · intro env fuel model d w w' h
    cases hser : serialize_keras_object env model with
    | error e =>
      by_cases hd : existsPath w d <;> simp [save, hser, hd] at h
    | ok r =>
      by_cases hd : existsPath w d <;>
        simp only [save, hser, hd, if_true, if_false, Bool.false_eq_true,
          mkdtemp, mkdir, existsPath_mkdtemp] at h <;>
        split at h <;> first
          | exact Except.noConfusion h
          | · simp only [Except.ok.injEq] at h
              subst h
              simp [rmtree, List.mem_filter, isPrefixOf_self]
  · intro env fuel d w G w' h
    simp only [load, mkdtemp, existsPath_mkdtemp, if_true] at h
    split at h <;> first
      | exact Except.noConfusion h
      | skip
    split at h <;> first
      | exact Except.noConfusion h
      | skip
    split at h <;> first
      | exact Except.noConfusion h
      | · simp only [Except.ok.injEq, Prod.mk.injEq] at h
          obtain ⟨-, h2⟩ := h
          subst h2
          simp [rmtree, List.mem_filter, isPrefixOf_self]
  · intro env fuel model d w fp w' h
    cases hser : serialize_keras_object env model with
    | error e =>
      by_cases hd : existsPath w d <;>
        simp only [save, hser, hd, if_true, if_false, Bool.false_eq_true,
          mkdtemp, mkdir, Except.error.injEq, Prod.mk.injEq] at h <;>
        exact absurd h.1 (by intro hh; exact SaveErr.noConfusion hh)
    | ok r =>
      by_cases hd : existsPath w d <;>
        simp only [save, hser, hd, if_true, if_false, Bool.false_eq_true,
          mkdtemp, mkdir, existsPath_mkdtemp] at h <;>
        split at h <;> first
          | exact Except.noConfusion h
          | · simp only [Except.error.injEq, Prod.mk.injEq] at h
              obtain ⟨-, h2⟩ := h
              subst h2
              exact List.mem_cons_self _ _
  · intro env fuel d w e w' h
    simp only [load, mkdtemp, existsPath_mkdtemp, if_true] at h
    split at h <;> first
      | · simp only [Except.error.injEq, Prod.mk.injEq] at h
          obtain ⟨-, h2⟩ := h
          subst h2
          exact List.mem_cons_self _ _
      | skip
    split at h <;> first
      | · simp only [Except.error.injEq, Prod.mk.injEq] at h
          obtain ⟨-, h2⟩ := h
          subst h2
          exact List.mem_cons_self _ _
      | skip
    split at h <;> first
      | · simp only [Except.error.injEq, Prod.mk.injEq] at h
          obtain ⟨-, h2⟩ := h
          subst h2
          exact List.mem_cons_self _ _
      | exact Except.noConfusion h

/-- C6 witness: the first successful save removed its scratch directory
from the resulting world. -/
theorem scratch_removed_on_success_not_on_failure_witness :
    mkdtempName ["dest"] W0.tmpCounter ∉ W1.dirs :=
  scratch_removed_on_success_not_on_failure.1 envW 3 (KObj.str "hi")
    ["dest"] W0 W1 rfl

/-- C6 counterexample: a failing `load` (no archive present) exits with
the freshly created scratch directory still present — its removal was
never attempted on the failure path. -/
theorem scratch_leaks_on_failure_counterexample :
    load envW 3 ["dest6"] ⟨[["dest6"]], [], 0⟩ =
      .error (.archiveNotFound ["dest6", "archive.keras"],
        ⟨[["dest6", "tmp0"], ["dest6"]], [], 1⟩) ∧
    ["dest6", "tmp0"] ∈ ([["dest6", "tmp0"], ["dest6"]] :
      List (List String)) := by
  refine ⟨rfl, by decide⟩

/-- Joining a component onto an archive-internal path strictly increases
its length. -/
theorem gjoin_length_lt (p b : String) : p.length < (gjoin p b).length := by
  have h1 : "/".length = 1 := rfl
  simp [gjoin, String.length_append, h1]
  omega

/-- Any `_load_state` hook invocation below a node names either the
node's own archive path or a strictly longer descendant path. -/
theorem load_absorb_path (fuel : Nat) :
    ∀ t p temp z q, LEvent.absorb q ∈ _load_state fuel t p temp z →
      q = p ∨ p.length < q.length := by
  induction fuel with
  | zero =>
    intro t p temp z q hq
    simp [_load_state] at hq
  | succ f ih =>
    intro t p temp z q hq
    simp only [_load_state, List.mem_append] at hq
    rcases hq with hown | hch
    · left
      by_cases hin : gjoin p _STATES_FILENAME ∈ z.namelist
      · by_cases hld : hasLoadStateAttr t
        · simp [hin, hld] at hown
          exact hown
        · simp [hin, hld] at hown
      · simp [hin] at hown
    · right
      rw [List.mem_flatten] at hch
      obtain ⟨l, hl, hql⟩ := hch
      rw [List.mem_map] at hl
      obtain ⟨pr, _, rfl⟩ := hl
      rcases pr with ⟨attr, ci⟩
      cases ci with
      | tfvar o => simp at hql
      | node o obj =>
        by_cases htr : _is_keras_trackable obj
        · simp only [htr, if_true] at hql
          have hlen : p.length < (gjoin p attr).length := gjoin_length_lt p attr
          rcases ih obj (gjoin p attr) temp z q hql with rfl | hlt
          · exact hlen
          · exact lt_trans hlen hlt
        · simp [htr] at hql

/-- C7: `load` of an archive whose config references nodes without
corresponding `states.npz` entries succeeds (the archive needs only its
config entry), and for every visited node whose `states.npz` path is
absent from the archive the node's `_load_state` hook is not invoked. -/
theorem load_missing_state_not_error :
    (∀ env fuel d w z b G,
      w.archiveFiles.lookup (d ++ [_ARCHIVE_FILENAME]) = some z →
      z.entries.lookup _CONFIG_FILENAME = some (ZEntry.bytes b) →
      deserialize_keras_object env (jsonDecode b) = .ok G →
      load env fuel d w = .ok (G,
        rmtree ⟨mkdtempName d w.tmpCounter :: w.dirs, w.archiveFiles,
          w.tmpCounter + 1⟩ (mkdtempName d w.tmpCounter))) ∧
    (∀ fuel t p temp z, gjoin p _STATES_FILENAME ∉ z.namelist →
      LEvent.absorb p ∉ _load_state fuel t p temp z) := by
  constructor
  · intro env fuel d w z b G h1 h2 h3
    simp only [load, mkdtemp, h1, h2, h3, existsPath_mkdtemp, if_true]
  · intro fuel t p temp z hanot hmem
    cases fuel with
    | zero => simp [_load_state] at hmem
    | succ f =>
      simp only [_load_state, List.mem_append] at hmem
      rcases hmem with hown | hch
      · simp [hanot] at hown
      · rw [List.mem_flatten] at hch
        obtain ⟨l, hl, hql⟩ := hch
        rw [List.mem_map] at hl
        obtain ⟨pr, _, rfl⟩ := hl
        rcases pr with ⟨attr, ci⟩
        cases ci with
        | tfvar o => simp at hql
        | node o obj =>
          by_cases htr : _is_keras_trackable obj
          · simp only [htr, if_true] at hql
            have hlen := gjoin_length_lt p attr
            rcases load_absorb_path f obj (gjoin p attr) temp z p hql
              with heq | hlt
            · rw [← heq] at hlen
              exact lt_irrefl _ hlen
            · omega
          · simp [htr] at hql

/-- C10: when a node's `states.npz` entry exists but the node has no
`_load_state` attribute, the walk still succeeds: the entry is extracted
and the extracted file removed, and the node's hook is never invoked —
the stored state is silently dropped. -/
theorem load_state_without_hook_dropped (fuel : Nat) (t : KObj)
    (p : String) (temp : List String) (z : Archive)
    (hin : gjoin p _STATES_FILENAME ∈ z.namelist)
    (hno : hasLoadStateAttr t = false) :
    (_load_state (fuel + 1) t p temp z).take 2 =
      [LEvent.extract (gjoin p _STATES_FILENAME),
       LEvent.removeExtracted (gjoin p _STATES_FILENAME)] ∧
    LEvent.absorb p ∉ _load_state (fuel + 1) t p temp z := by
  constructor
  · simp [_load_state, hin, hno]
  · intro hmem
    simp only [_load_state, List.mem_append] at hmem
    rcases hmem with hown | hch
    · simp [hin, hno] at hown
    · rw [List.mem_flatten] at hch
      obtain ⟨l, hl, hql⟩ := hch
      rw [List.mem_map] at hl
      obtain ⟨pr, _, rfl⟩ := hl
      rcases pr with ⟨attr, ci⟩
      cases ci with
      | tfvar o => simp at hql
      | node o obj =>
        by_cases htr : _is_keras_trackable obj
        · simp only [htr, if_true] at hql
          have hlen := gjoin_length_lt p attr
          rcases load_absorb_path fuel obj (gjoin p attr) temp z p hql
            with heq | hlt
          · rw [← heq] at hlen
            exact lt_irrefl _ hlen
          · omega
        · simp [htr] at hql

/-- A world holding an archive with only a config entry. -/
def W7 : World := ⟨[["d7"]], [(["d7", "archive.keras"], zHi)], 0⟩

/-- C7 witness: loading an archive that has no state entry at all
succeeds and returns the deserialized object. -/
theorem load_missing_state_not_error_witness :
    load envW 3 ["d7"] W7 = .ok (KObj.str "hi",
      rmtree ⟨mkdtempName ["d7"] 0 :: W7.dirs, W7.archiveFiles, 1⟩
        (mkdtempName ["d7"] 0)) :=
  load_missing_state_not_error.1 envW 3 ["d7"] W7 zHi ⟨rHi⟩
    (KObj.str "hi") rfl rfl rfl

/-- C10 witness: a string object (no `_load_state` attribute) visited at
a path whose state entry exists. -/
theorem load_state_without_hook_dropped_witness :
    ((_load_state 1 (KObj.str "x") "model" []
        ⟨[("model/states.npz", ZEntry.blob "S")]⟩).take 2 =
      [LEvent.extract (gjoin "model" _STATES_FILENAME),
       LEvent.removeExtracted (gjoin "model" _STATES_FILENAME)]) ∧
    LEvent.absorb "model" ∉ _load_state 1 (KObj.str "x") "model" []
      ⟨[("model/states.npz", ZEntry.blob "S")]⟩ :=
  load_state_without_hook_dropped 0 (KObj.str "x") "model" []
    ⟨[("model/states.npz", ZEntry.blob "S")]⟩ (by decide) rfl

/-- The coherence conditions under which an object round-trips without
custom registration drift: the builtin classes `str` and `function` are
not keras-exported; a function value resolves back to itself through the
registration table or through its recorded module; an instance's class
resolves back to itself through the registration table, the
exported-symbol table, or its recorded module (which must not shadow
`builtins`), it exposes `get_config`, and its `from_config` rebuilds an
object with the same serialization (the claim's "built purely from
configuration"). -/
def EnvFaithfulFor (env : Env) : KObj → Prop
  | .str _ => env.canonicalName ⟨"builtins", "str"⟩ = none
  | .func m n =>
    env.canonicalName ⟨"builtins", "function"⟩ = none ∧
    ((∃ a, env.registeredNameOfFunc m n = some a ∧
        env.customObjects a = some (.fn m n)) ∨
     (env.registeredNameOfFunc m n = none ∧
        env.moduleExists m = true ∧
        env.moduleAttr m n = some (.func m n)))
  | .inst c isL gc ss hl ch =>
    ∃ cfg, gc = some cfg ∧
      env.hasFromConfig c = true ∧
      ((∃ a, env.registeredNameOfClass c = some a ∧
          env.customObjects a = some (.cls c) ∧
          (env.canonicalName c = none → c.module ≠ "builtins")) ∨
       (env.registeredNameOfClass c = none ∧
          ((∃ cn, env.canonicalName c = some cn ∧
              env.exportedSymbol cn = some (.pyClass c)) ∨
           (env.canonicalName c = none ∧ c.module ≠ "builtins" ∧
              env.moduleExists c.module = true ∧
              env.moduleAttr c.module c.name = some (.pyClass c))))) ∧
      serialize_keras_object env (env.fromConfig c cfg) =
        serialize_keras_object env (KObj.inst c isL gc ss hl ch)
  | .pyClass _ => False
  | .pyNone => False

/-- The codec round-trip at the record level: serialize, deserialize the
resulting record, and serialize again reproduces the same record. -/
theorem serialize_deserialize_serialize (env : Env) (G : KObj)
    (h : EnvFaithfulFor env G) :
    ∃ r G', serialize_keras_object env G = .ok r ∧
      deserialize_keras_object env r = .ok G' ∧
      serialize_keras_object env G' = .ok r := by
  cases G with
  | str s =>
    have hc : env.canonicalName ⟨"builtins", "str"⟩ = none := h
    have hs : serialize_keras_object env (KObj.str s) =
        .ok (JValue.obj [
          ("module", JValue.str "builtins"),
          ("class_name", JValue.str "str"),
          ("config", JValue.str s),
          ("registered_name",
            optStr (env.registeredNameOfClass ⟨"builtins", "str"⟩))]) := by
      simp [serialize_keras_object, classOf, _get_object_config, hc,
        _get_object_registered_name]
    exact ⟨_, KObj.str s, hs, rfl, hs⟩
  | func m n =>
    obtain ⟨hc, hres⟩ := h
    have hs : serialize_keras_object env (KObj.func m n) =
        .ok (JValue.obj [
          ("module", JValue.str "builtins"),
          ("class_name", JValue.str "function"),
          ("config", JValue.obj [("module", .str m),
            ("function_name", .str n)]),
          ("registered_name", optStr (env.registeredNameOfFunc m n))]) := by
      simp [serialize_keras_object, classOf, _get_object_config, hc,
        _get_object_registered_name]
    refine ⟨_, KObj.func m n, hs, ?_, hs⟩
    rcases hres with ⟨a, ha, hcust⟩ | ⟨hnone, hmx, hattr⟩
    · simp [deserialize_keras_object, getKey, List.lookup, bind,
        Except.bind, ha, optStr, get_custom_objects_by_name, hcust,
        regEntryObj, jeqStr, pure, Except.pure]
    · simp [deserialize_keras_object, getKey, jGet, List.lookup, bind,
        Except.bind, hnone, optStr, get_custom_objects_by_name, hmx,
        hattr, orPyNone, jeqStr, pure, Except.pure]
  | pyClass c => exact absurd h (by simp [EnvFaithfulFor])
  | pyNone => exact absurd h (by simp [EnvFaithfulFor])
  | inst c isL gc ss hl ch =>
    obtain ⟨cfg, hgc, hfc, hres, hser⟩ := h
    subst hgc
    rcases hres with ⟨a, hreg, hcust, hmodne⟩ | ⟨hregn, hcanres⟩
    · cases hcan : env.canonicalName c with
      | some cn =>
        have hs : serialize_keras_object env
            (KObj.inst c isL (some cfg) ss hl ch) =
            .ok (JValue.obj [
              ("module", JValue.null),
              ("class_name", JValue.str cn),
              ("config", cfg),
              ("registered_name", JValue.str a)]) := by
          simp [serialize_keras_object, classOf, _get_object_config, hcan,
            _get_object_registered_name, hreg, optStr]
        refine ⟨_, env.fromConfig c cfg, hs, ?_, hser.trans hs⟩
        simp [deserialize_keras_object, getKey, List.lookup, bind,
          Except.bind, get_custom_objects_by_name, hcust, hfc, jeqStr,
          pure, Except.pure]
      | none =>
        have hmb := hmodne hcan
        have hs : serialize_keras_object env
            (KObj.inst c isL (some cfg) ss hl ch) =
            .ok (JValue.obj [
              ("module", JValue.str c.module),
              ("class_name", JValue.str c.name),
              ("config", cfg),
              ("registered_name", JValue.str a)]) := by
          simp [serialize_keras_object, classOf, _get_object_config, hcan,
            _get_object_registered_name, hreg, optStr]
        refine ⟨_, env.fromConfig c cfg, hs, ?_, hser.trans hs⟩
        simp [deserialize_keras_object, getKey, List.lookup, bind,
          Except.bind, get_custom_objects_by_name, hcust, hfc, jeqStr,
          pure, Except.pure, hmb]
    · rcases hcanres with ⟨cn, hcan, hexp⟩ | ⟨hcan, hmb, hmx, hattr⟩
      · have hs : serialize_keras_object env
            (KObj.inst c isL (some cfg) ss hl ch) =
            .ok (JValue.obj [
              ("module", JValue.null),
              ("class_name", JValue.str cn),
              ("config", cfg),
              ("registered_name", JValue.null)]) := by
          simp [serialize_keras_object, classOf, _get_object_config, hcan,
            _get_object_registered_name, hregn, optStr]
        refine ⟨_, env.fromConfig c cfg, hs, ?_, hser.trans hs⟩
        simp [deserialize_keras_object, getKey, List.lookup, bind,
          Except.bind, get_custom_objects_by_name, hexp, hfc, jeqStr,
          jIsNull, pure, Except.pure]
      · have hs : serialize_keras_object env
            (KObj.inst c isL (some cfg) ss hl ch) =
            .ok (JValue.obj [
              ("module", JValue.str c.module),
              ("class_name", JValue.str c.name),
              ("config", cfg),
              ("registered_name", JValue.null)]) := by
          simp [serialize_keras_object, classOf, _get_object_config, hcan,
            _get_object_registered_name, hregn, optStr]
        refine ⟨_, env.fromConfig c cfg, hs, ?_, hser.trans hs⟩
        simp [deserialize_keras_object, getKey, List.lookup, bind,
          Except.bind, get_custom_objects_by_name, hmx, hattr, hfc,
          jeqStr, jIsNull, pure, Except.pure, hmb]

/-- Prop form of `mkdtemp_not_prefix_archive`. -/
theorem mkdtemp_not_prefix_archive_p (d : List String) (n : Nat) :
    ¬ (mkdtempName d n <+: d ++ [_ARCHIVE_FILENAME]) := by
  rw [← List.isPrefixOf_iff_prefix]
  rw [mkdtemp_not_prefix_archive]
  simp

/-- The world a successful `save` produces: destination ensured, archive
written with the config entry first and the state entries after it,
scratch directory removed. -/
def savedWorld (fuel : Nat) (model : KObj) (d : List String)
    (w : World) (r : JValue) : World :=
  rmtree ⟨mkdtempName d w.tmpCounter ::
      (if existsPath w d then w.dirs else d :: w.dirs),
    (d ++ [_ARCHIVE_FILENAME],
      ⟨(_CONFIG_FILENAME, ZEntry.bytes (jsonDumps r)) ::
        _save_state fuel model _STATES_ROOT_DIRNAME
          (mkdtempName d w.tmpCounter)⟩) :: w.archiveFiles,
    w.tmpCounter + 1⟩ (mkdtempName d w.tmpCounter)

/-- The world a successful `load` leaves: the scratch directory created
and removed again. -/
def loadedWorld (d : List String) (w1 : World) : World :=
  rmtree ⟨mkdtempName d w1.tmpCounter :: w1.dirs, w1.archiveFiles,
    w1.tmpCounter + 1⟩ (mkdtempName d w1.tmpCounter)

/-- Running `save` on a destination without an existing archive succeeds and
produces exactly `savedWorld`. -/
theorem save_ok_eq (env : Env) (fuel : Nat) (model : KObj)
    (d : List String) (w : World) (r : JValue)
    (hser : serialize_keras_object env model = .ok r)
    (hno : d ++ [_ARCHIVE_FILENAME] ∉ w.archiveFiles.map Prod.fst) :
    save env fuel model d w = .ok (savedWorld fuel model d w r) := by
  by_cases hd : existsPath w d <;>
    simp only [save, hser, hd, if_true, if_false, Bool.false_eq_true,
      mkdtemp, mkdir, existsPath_mkdtemp, hno, if_neg, ite_false,
      ite_true, savedWorld]

/-- Running `load` on a world whose archive holds a deserializable config entry
succeeds with that object. -/
theorem load_ok_eq (env : Env) (fuel : Nat) (d : List String) (w : World)
    (z : Archive) (b : JsonBytes) (G : KObj)
    (h1 : w.archiveFiles.lookup (d ++ [_ARCHIVE_FILENAME]) = some z)
    (h2 : z.entries.lookup _CONFIG_FILENAME = some (ZEntry.bytes b))
    (h3 : deserialize_keras_object env (jsonDecode b) = .ok G) :
    load env fuel d w = .ok (G, loadedWorld d w) := by
  simp only [load, mkdtemp, h1, h2, h3, existsPath_mkdtemp, if_true,
    loadedWorld]

/-- C1: for any object graph built purely from configuration (captured
by `EnvFaithfulFor`), `save` followed by `load` at the same directory
succeeds and returns an object whose serialized Config Record equals the
original's — serialize, JSON-encode, JSON-decode, deserialize reproduces
an object equivalent by config. -/
theorem save_load_roundtrip (env : Env) (f1 f2 : Nat) (G : KObj)
    (d : List String) (w : World)
    (h : EnvFaithfulFor env G)
    (hno : d ++ [_ARCHIVE_FILENAME] ∉ w.archiveFiles.map Prod.fst) :
    ∃ w1 G' w2,
      save env f1 G d w = .ok w1 ∧
      load env f2 d w1 = .ok (G', w2) ∧
      serialize_keras_object env G' = serialize_keras_object env G := by
  obtain ⟨r, G', hs, hdes, hs2⟩ := serialize_deserialize_serialize env G h
  have hsave := save_ok_eq env f1 G d w r hs hno
  have hlook : (savedWorld f1 G d w r).archiveFiles.lookup
      (d ++ [_ARCHIVE_FILENAME]) =
      some ⟨(_CONFIG_FILENAME, ZEntry.bytes (jsonDumps r)) ::
        _save_state f1 G _STATES_ROOT_DIRNAME
          (mkdtempName d w.tmpCounter)⟩ := by
    simp [savedWorld, rmtree, List.filter_cons, mkdtemp_not_prefix_archive,
      mkdtemp_not_prefix_archive_p, List.lookup]
  have hload := load_ok_eq env f2 d (savedWorld f1 G d w r)
    ⟨(_CONFIG_FILENAME, ZEntry.bytes (jsonDumps r)) ::
      _save_state f1 G _STATES_ROOT_DIRNAME (mkdtempName d w.tmpCounter)⟩
    (jsonDumps r) G' hlook (by simp [List.lookup]) hdes
  exact ⟨savedWorld f1 G d w r, G',
    loadedWorld d (savedWorld f1 G d w r), hsave, hload,
    by rw [hs2, hs]⟩

/-- A registered custom layer instance used as the round-trip witness. -/
def GW : KObj :=
  KObj.inst ⟨"my_pkg.mod", "MyLayer"⟩ true (some (JValue.obj [])) none
    false []

/-- C1 witness: the concrete environment and registered layer. -/
theorem save_load_roundtrip_witness :
    EnvFaithfulFor envW GW ∧
    (∃ w1 G' w2,
      save envW 3 GW ["d1"] W0 = .ok w1 ∧
      load envW 3 ["d1"] w1 = .ok (G', w2) ∧
      serialize_keras_object envW G' = serialize_keras_object envW GW) := by
  have hEF : EnvFaithfulFor envW GW :=
    ⟨JValue.obj [], rfl, rfl,
      Or.inl ⟨"my_pkg>MyLayer", by decide, by decide, fun _ => by decide⟩,
      rfl⟩
  exact ⟨hEF, save_load_roundtrip envW 3 3 GW ["d1"] W0 hEF (by decide)⟩
